import Mathlib

/-
Shallow embedding of the joshdevph/tech-exam FastAPI service.

The relational store is modelled as a Lean list of rows (users, items).
Request-level effects are modelled by explicit state passing: a route that
commits to the store returns the new list of rows next to its response.
HTTP outcomes are modelled by `Resp`; dependency functions that raise
`HTTPException` return `Except Failure`.  The external JWT library (jose)
is a collaborator: its decode result is an input (`DecodeResult`), since
`app/api/deps.py` consumes `jwt.decode` through a try/except on `JWTError`.
Machine UUIDs are modelled as their 128-bit natural-number value.
-/

namespace TechExam

/-- Embedding of Python `str.lower` on a single character, restricted to
ASCII (the repository only case-normalizes email addresses). Mirrors the
ord-arithmetic behaviour: codepoints 65..90 shift up by 32. -/
def pyCharLower (c : Char) : Char :=
  if 65 <= c.toNat && c.toNat <= 90 then Char.ofNat (c.toNat + 32) else c

/-- Embedding of Python `str.lower` (ASCII range). -/
def pyLower (s : String) : String :=
  String.mk (s.data.map pyCharLower)

/-- Hexadecimal digit test, as accepted by Python `int(h, 16)` inside
`uuid.UUID`. -/
def isHexDigitChar (c : Char) : Bool :=
  (48 <= c.toNat && c.toNat <= 57) ||
  (97 <= c.toNat && c.toNat <= 102) ||
  (65 <= c.toNat && c.toNat <= 70)

/-- Numeric value of a hexadecimal digit character. -/
def hexVal (c : Char) : Nat :=
  if c.toNat <= 57 then c.toNat - 48
  else if 97 <= c.toNat then c.toNat - 87
  else c.toNat - 55

/-- Embedding of the Python stdlib `uuid.UUID(s)` constructor on its
canonical input forms: hyphens are removed, the remainder must be exactly
32 hexadecimal digits, and the value is that 128-bit integer.  A string
that does not satisfy this raises `ValueError` in Python, modelled as
`none`. -/
def parseUUID (s : String) : Option Nat :=
  let cs := s.data.filter (fun c => c != '-')
  if cs.length == 32 && cs.all isHexDigitChar then
    some (cs.foldl (fun a c => a * 16 + hexVal c) 0)
  else
    none

/-- Canonical 8-4-4-4-12 lowercase-hex rendering of a UUID value,
embedding Python `str(uuid)`. -/
def uuidToString (n : Nat) : String :=
  let hx := Nat.toDigits 16 (n % 2 ^ 128)
  let p := List.replicate (32 - hx.length) '0' ++ hx
  String.mk (p.take 8 ++ '-' :: (p.drop 8).take 4 ++ '-' :: (p.drop 12).take 4
    ++ '-' :: (p.drop 16).take 4 ++ '-' :: p.drop 20)

/-- Row of the `users` table (`app/db/models/user.py`).  The audit columns
`created_at`/`updated_at` are maintained by the database and unused by any
application logic, so they are not modelled. -/
structure User where
  id : Nat
  email : String
  full_name : Option String
  hashed_password : String
  is_active : Bool
  is_superuser : Bool
deriving DecidableEq, Repr

/-- Row of the `items` table (`app/db/models/item.py`).  `created_at` is
modelled (it orders listings); the server-maintained `updated_at` is not. -/
structure Item where
  id : Nat
  title : String
  description : Option String
  owner_id : Nat
  created_at : Nat
deriving DecidableEq, Repr

/-- Request body of registration (`app/schemas/user.py`, `UserCreate`).
Pydantic shape validation (EmailStr, password length 8..128) happens
before the route body and is not modelled. -/
structure UserCreate where
  email : String
  full_name : Option String
  password : String
deriving DecidableEq, Repr

/-- Request body of item creation (`app/schemas/item.py`, `ItemCreate`). -/
structure ItemCreate where
  title : String
  description : Option String
deriving DecidableEq, Repr

/-- Request body of item update (`app/schemas/item.py`, `ItemUpdate`);
both fields optional. -/
structure ItemUpdate where
  title : Option String
  description : Option String
deriving DecidableEq, Repr

/-- Decoded JWT claim set (`app/schemas/auth.py`, `TokenPayload`): both
claims optional. -/
structure TokenPayload where
  sub : Option String
  exp : Option Int
deriving DecidableEq, Repr

/-- Result of the external `jose.jwt.decode` call in
`app/api/deps.py:get_current_user`: either a validated payload, or a
`JWTError` (malformed token, bad signature, or expired). -/
inductive DecodeResult where
  | decoded : TokenPayload → DecodeResult
  | jwtError : DecodeResult
deriving DecidableEq, Repr

/-- How a dependency or route body terminates abnormally: a raised
`HTTPException(status, detail)`, or an uncaught Python exception (named by
its class), which FastAPI surfaces as a 500. -/
inductive Failure where
  | http : Nat → String → Failure
  | exn : String → Failure
deriving DecidableEq, Repr

/-- HTTP response of a route: success with the decorator status code and
body, an `HTTPException` turned into an error response, or a crash from an
uncaught exception. -/
inductive Resp (α : Type) where
  | ok : Nat → α → Resp α
  | err : Nat → String → Resp α
  | exn : String → Resp α
deriving DecidableEq, Repr

/-- Modelled from the spec: `app/core/security.py` is not in the sources.
Section 4.1 specifies `hash(plaintext) -> digest`, one-way and verifiable.
The salt is not modelled (it would make `hash` nondeterministic); this
deterministic idealization satisfies exactly the testable properties of
section 8: `verify(p, hash(p))` is true and `verify(p, hash(q))` is false
for `p ≠ q`. -/
def get_password_hash (p : String) : String :=
  "bcrypt-sha256$" ++ p

/-- Modelled from the spec: `app/core/security.py` is not in the sources.
Section 4.1: `verify(plaintext, digest)` recomputes from the digest and
compares; never throws on malformed digest (fails closed to false). -/
def verify_password (plain hashed : String) : Bool :=
  hashed == get_password_hash plain

/-- Modelled from the spec: `app/core/security.py` is not in the sources.
Section 4.2: `issue(subject, ttl)` produces a compact signed string
encoding the subject and expiry claims.  The signature and absolute clock
are not modelled; the string records the claims. -/
def create_access_token (subject : String) (expires_seconds : Nat) : String :=
  "jwt." ++ subject ++ "." ++ toString expires_seconds

/-- Settings value `access_token_expire_minutes` (`app/core/config.py`,
default 30, loaded once at startup). -/
def access_token_expire_minutes : Nat := 30

/-- Response body of login (`app/schemas/auth.py`, `TokenResponse`). -/
structure TokenResponse where
  access_token : String
  token_type : String := "bearer"
  expires_in : Nat
deriving DecidableEq, Repr

/-- `app/services/user_service.py:get_user` — primary-key lookup
(`db.get(User, user_id)`). -/
def get_user (db : List User) (user_id : Nat) : Option User :=
  db.find? (fun u => u.id == user_id)

/-- `app/services/user_service.py:get_user_by_email` — single-row query
`select(User).where(User.email == email.lower())`. -/
def get_user_by_email (db : List User) (email : String) : Option User :=
  db.find? (fun u => u.email == pyLower email)

/-- `app/services/user_service.py:create_user` — inserts a new user with
the email lowercased and the password hashed; `is_active` true.  The
database-generated primary key (`uuid4`) is passed in as `new_id`. -/
def create_user (db : List User) (user_in : UserCreate) (new_id : Nat)
    (is_superuser : Bool) : User × List User :=
  let u : User :=
    { id := new_id
      email := pyLower user_in.email
      full_name := user_in.full_name
      hashed_password := get_password_hash user_in.password
      is_active := true
      is_superuser := is_superuser }
  (u, db ++ [u])

/-- `app/services/user_service.py:authenticate_user` — looks up by
lowercased email, then verifies the password hash; returns `none` on
either failure, indistinguishably. -/
def authenticate_user (db : List User) (email password : String) : Option User :=
  match get_user_by_email db (pyLower email) with
  | none => none
  | some user =>
    if !(verify_password password user.hashed_password) then none
    else some user

/-- `app/api/deps.py:get_current_user`.  The `jose` decode result is the
input `dec`; `JWTError` is caught and mapped to a generic 401.  An absent
or empty `sub` claim is a generic 401.  `UUID(token_data.sub)` sits
outside the try/except, so a non-UUID subject raises an uncaught
`ValueError`.  A subject that matches no stored user raises 401 with
detail "User not found". -/
def get_current_user (dec : DecodeResult) (db : List User) : Except Failure User :=
  match dec with
  | .jwtError => .error (.http 401 "Could not validate credentials")
  | .decoded token_data =>
    match token_data.sub with
    | none => .error (.http 401 "Could not validate credentials")
    | some s =>
      if s == "" then .error (.http 401 "Could not validate credentials")
      else
        match parseUUID s with
        | none => .error (.exn "ValueError")
        | some uid =>
          match get_user db uid with
          | none => .error (.http 401 "User not found")
          | some user => .ok user

/-- `app/api/deps.py:get_current_active_user` — rejects an inactive user
with 400 "Inactive user". -/
def get_current_active_user (current_user : User) : Except Failure User :=
  if !current_user.is_active then .error (.http 400 "Inactive user")
  else .ok current_user

/-- `app/api/deps.py:get_current_active_superuser` — its dependency is
`get_current_user` (NOT `get_current_active_user`); the body checks only
`is_superuser` and rejects with 403 "Insufficient privileges". -/
def get_current_active_superuser (current_user : User) : Except Failure User :=
  if !current_user.is_superuser then .error (.http 403 "Insufficient privileges")
  else .ok current_user

/-- The FastAPI dependency chain behind every active-user route:
`get_current_user` then `get_current_active_user`. -/
def resolve_active_user (dec : DecodeResult) (db : List User) : Except Failure User :=
  (get_current_user dec db).bind get_current_active_user

/-- The FastAPI dependency chain behind a superuser-gated operation, as
wired in `app/api/deps.py`: `get_current_user` then
`get_current_active_superuser` (no active check in between). -/
def resolve_superuser (dec : DecodeResult) (db : List User) : Except Failure User :=
  (get_current_user dec db).bind get_current_active_superuser

/-- `app/api/routes/auth.py:register_user` — 400 "Email already
registered" when `get_user_by_email` finds the submitted email, else
creates the user and responds 201.  The response model is the public
`UserRead` view of the created row. -/
def register_user (db : List User) (user_in : UserCreate) (new_id : Nat) :
    Resp User × List User :=
  match get_user_by_email db user_in.email with
  | some _ => (.err 400 "Email already registered", db)
  | none =>
    let r := create_user db user_in new_id false
    (.ok 201 r.1, r.2)

/-- `app/api/routes/auth.py:login` — 401 "Incorrect email or password"
when authentication fails, else mints a token for `str(user.id)` with the
configured TTL. -/
def login (db : List User) (email password : String) : Resp TokenResponse :=
  match authenticate_user db email password with
  | none => .err 401 "Incorrect email or password"
  | some user =>
    let secs := access_token_expire_minutes * 60
    .ok 200 { access_token := create_access_token (uuidToString user.id) secs
              token_type := "bearer"
              expires_in := secs }

/-- `app/api/routes/auth.py:read_current_user` (`GET /auth/me`) — returns
the resolved active user. -/
def read_current_user (dec : DecodeResult) (db : List User) : Resp User :=
  match resolve_active_user dec db with
  | .error (.http s d) => .err s d
  | .error (.exn e) => .exn e
  | .ok u => .ok 200 u

/-- Ordering used by item listing: newest first by `created_at`
(`order_by(Item.created_at.desc())`). -/
def newerFirst (a b : Item) : Prop :=
  b.created_at <= a.created_at

instance : DecidableRel newerFirst :=
  fun a b => Nat.decLe b.created_at a.created_at

instance : IsTotal Item newerFirst :=
  ⟨fun a b => Nat.le_total b.created_at a.created_at⟩

instance : IsTrans Item newerFirst :=
  ⟨fun _ _ _ h1 h2 => Nat.le_trans h2 h1⟩

/-- `app/services/item_service.py:list_items` — rows with the given
`owner_id`, ordered by `created_at` descending. -/
def list_items (db : List Item) (owner_id : Nat) : List Item :=
  List.insertionSort newerFirst (db.filter (fun it => it.owner_id == owner_id))

/-- `app/services/item_service.py:get_item` — single-row query whose
`where` clause conjoins the owner and the id:
`select(Item).where(Item.owner_id == owner_id, Item.id == item_id)`. -/
def get_item (db : List Item) (owner_id item_id : Nat) : Option Item :=
  db.find? (fun it => it.owner_id == owner_id && it.id == item_id)

/-- `app/services/item_service.py:create_item` — inserts a row owned by
`owner_id`; the database generates the primary key and `created_at`
(passed in as `new_id`, `now`). -/
def create_item (db : List Item) (owner_id : Nat) (item_in : ItemCreate)
    (new_id now : Nat) : Item × List Item :=
  let it : Item :=
    { id := new_id
      title := item_in.title
      description := item_in.description
      owner_id := owner_id
      created_at := now }
  (it, db ++ [it])

/-- `app/services/item_service.py:update_item` — overwrites `title` and
`description` only where the payload field is not `None`, then commits
the mutated row. -/
def update_item (db : List Item) (item : Item) (item_in : ItemUpdate) :
    Item × List Item :=
  let item1 :=
    match item_in.title with
    | some t => { item with title := t }
    | none => item
  let item2 :=
    match item_in.description with
    | some d => { item1 with description := some d }
    | none => item1
  (item2, db.map (fun x => if x.id == item.id then item2 else x))

/-- `app/services/item_service.py:delete_item` — deletes the row with the
given primary key. -/
def delete_item (db : List Item) (item : Item) : List Item :=
  db.filter (fun it => it.id != item.id)

/-- `app/api/routes/items.py:list_my_items` (`GET /items`). -/
def list_my_items (db : List Item) (current_user_id : Nat) : Resp (List Item) :=
  .ok 200 (list_items db current_user_id)

/-- `app/api/routes/items.py:get_item_by_id` (`GET /items/.{id.}`) — the
store query already carries the caller as owner filter; a miss is 404
"Item not found". -/
def get_item_by_id (db : List Item) (current_user_id item_id : Nat) : Resp Item :=
  match get_item db current_user_id item_id with
  | none => .err 404 "Item not found"
  | some it => .ok 200 it

/-- `app/api/routes/items.py:update_item_by_id` (`PUT /items/.{id.}`). -/
def update_item_by_id (db : List Item) (current_user_id item_id : Nat)
    (item_in : ItemUpdate) : Resp Item × List Item :=
  match get_item db current_user_id item_id with
  | none => (.err 404 "Item not found", db)
  | some it =>
    let r := update_item db it item_in
    (.ok 200 r.1, r.2)

/-- `app/api/routes/items.py:delete_item_by_id` (`DELETE /items/.{id.}`),
204 on success. -/
def delete_item_by_id (db : List Item) (current_user_id item_id : Nat) :
    Resp Unit × List Item :=
  match get_item db current_user_id item_id with
  | none => (.err 404 "Item not found", db)
  | some it => (.ok 204 (), delete_item db it)

/-! Helper lemmas shared by several claim proofs. -/

theorem char_toNat_ofNat_lt (n : Nat) (h : n < 55296) : (Char.ofNat n).toNat = n := by
  have hv : n.isValidChar := Or.inl h
  simp only [Char.ofNat, hv, dif_pos, Char.ofNatAux, Char.toNat]
  rfl

theorem pyCharLower_idem (c : Char) : pyCharLower (pyCharLower c) = pyCharLower c := by
  unfold pyCharLower
  by_cases h : (65 <= c.toNat && c.toNat <= 90) = true
  · rw [if_pos h]
    have hh := h
    simp only [Bool.and_eq_true, decide_eq_true_eq] at hh
    have ht : (Char.ofNat (c.toNat + 32)).toNat = c.toNat + 32 :=
      char_toNat_ofNat_lt _ (by omega)
    rw [ht, if_neg]
    simp only [Bool.and_eq_true, decide_eq_true_eq, not_and]
    intro _
    omega
  · rw [if_neg h, if_neg h]

theorem pyLower_idem (s : String) : pyLower (pyLower s) = pyLower s := by
  unfold pyLower
  simp only [List.map_map, Function.comp_def, pyCharLower_idem]

theorem parseUUID_empty : parseUUID "" = none := by decide

/-- Claim C1: if the token decodes successfully but the store holds no
Identity with the decoded subject id, resolving it (get_current_user)
fails with a 401 and returns no Identity, despite the valid signature and
unexpired token (both implied by the successful decode). -/
theorem stale_token_rejected_after_user_deletion (dec : DecodeResult)
    (db : List User) (td : TokenPayload) (s : String) (uid : Nat)
    (hdec : dec = .decoded td) (hsub : td.sub = some s)
    (hparse : parseUUID s = some uid) (hmiss : get_user db uid = none) :
    get_current_user dec db = .error (.http 401 "User not found") ∧
    ∀ u, get_current_user dec db ≠ .ok u := by
  subst hdec
  have hs : (s == "") = false := by
    cases hbe : s == ""
    · rfl
    · have hse : s = "" := eq_of_beq hbe
      rw [hse, parseUUID_empty] at hparse
      exact Option.noConfusion hparse
  simp only [get_current_user, hsub, hs, Bool.false_eq_true, if_false, hparse, hmiss]
  exact ⟨trivial, fun u h => Except.noConfusion h⟩

theorem stale_token_rejected_after_user_deletion_witness :
    get_current_user
      (.decoded { sub := some "00000000-0000-0000-0000-000000000001", exp := some 32503680000 })
      [] = .error (.http 401 "User not found") :=
  (stale_token_rejected_after_user_deletion
    (.decoded { sub := some "00000000-0000-0000-0000-000000000001", exp := some 32503680000 })
    [] { sub := some "00000000-0000-0000-0000-000000000001", exp := some 32503680000 }
    "00000000-0000-0000-0000-000000000001" 1 rfl rfl (by decide) rfl).1

/-- Claim C3 (code bug): the privilege gate `get_current_active_superuser`
depends on `get_current_user`, not `get_current_active_user`, so no
active check runs before (or after) the privilege check.  An inactive
superuser is admitted outright, and an inactive non-superuser receives
403 "Insufficient privileges" instead of the claimed 400 "Inactive
user". -/
theorem superuser_gate_admits_inactive_superuser :
    (resolve_superuser
      (.decoded { sub := some "00000000-0000-0000-0000-000000000001", exp := some 32503680000 })
      [{ id := 1, email := "root@example.com", full_name := none,
         hashed_password := "h", is_active := false, is_superuser := true }] =
      .ok { id := 1, email := "root@example.com", full_name := none,
            hashed_password := "h", is_active := false, is_superuser := true }) ∧
    (resolve_superuser
      (.decoded { sub := some "00000000-0000-0000-0000-000000000002", exp := some 32503680000 })
      [{ id := 2, email := "bob@example.com", full_name := none,
         hashed_password := "h", is_active := false, is_superuser := false }] =
      .error (.http 403 "Insufficient privileges")) := by
  exact ⟨by rfl, by rfl⟩

/-- Claim C4 counterexample: a validly decoded token whose subject matches
no stored user produces 401 with detail "User not found", not the generic
"Could not validate credentials" — the failure reason is exposed. -/
theorem unknown_user_detail_distinct :
    get_current_user
      (.decoded { sub := some "00000000-0000-0000-0000-000000000001", exp := some 32503680000 })
      [] = .error (.http 401 "User not found") ∧
    "User not found" ≠ "Could not validate credentials" := by
  exact ⟨by rfl, by decide⟩

/-- Claim C4 as amended: codec failures and empty-subject failures carry
the generic "Could not validate credentials" message, but a decoded
subject that matches no stored Identity yields 401 with the distinct
detail "User not found". -/
theorem resolution_failure_details (db : List User) :
    (get_current_user .jwtError db =
      .error (.http 401 "Could not validate credentials")) ∧
    (∀ td : TokenPayload, td.sub = none →
      get_current_user (.decoded td) db =
        .error (.http 401 "Could not validate credentials")) ∧
    (∀ td : TokenPayload, td.sub = some "" →
      get_current_user (.decoded td) db =
        .error (.http 401 "Could not validate credentials")) ∧
    (∀ (td : TokenPayload) (s : String) (uid : Nat), td.sub = some s →
      parseUUID s = some uid → get_user db uid = none →
      get_current_user (.decoded td) db = .error (.http 401 "User not found")) := by
  refine ⟨rfl, ?_, ?_, ?_⟩
  · intro td h
    simp only [get_current_user, h]
  · intro td h
    simp only [get_current_user, h]
    rfl
  · intro td s uid hsub hparse hmiss
    have hs : (s == "") = false := by
      cases hbe : s == ""
      · rfl
      · have hse : s = "" := eq_of_beq hbe
        rw [hse, parseUUID_empty] at hparse
        exact Option.noConfusion hparse
    simp only [get_current_user, hsub, hs, Bool.false_eq_true, if_false, hparse, hmiss]

theorem resolution_failure_details_witness :
    (get_current_user .jwtError [] =
      .error (.http 401 "Could not validate credentials")) ∧
    (get_current_user (.decoded { sub := none, exp := some 0 }) [] =
      .error (.http 401 "Could not validate credentials")) ∧
    (get_current_user (.decoded { sub := some "", exp := some 0 }) [] =
      .error (.http 401 "Could not validate credentials")) ∧
    (get_current_user
      (.decoded { sub := some "00000000-0000-0000-0000-000000000002", exp := some 0 }) [] =
      .error (.http 401 "User not found")) :=
  ⟨(resolution_failure_details []).1,
   (resolution_failure_details []).2.1 { sub := none, exp := some 0 } rfl,
   (resolution_failure_details []).2.2.1 { sub := some "", exp := some 0 } rfl,
   (resolution_failure_details []).2.2.2 { sub := some "00000000-0000-0000-0000-000000000002", exp := some 0 }
     "00000000-0000-0000-0000-000000000002" 2 rfl (by decide) rfl⟩

/-- Claim C5 (code bug): `UUID(token_data.sub)` in
`app/api/deps.py:get_current_user` sits outside the try/except, so a
validly-signed token whose subject is a non-empty non-UUID string raises
an uncaught `ValueError` (a 500), not the claimed 401. -/
theorem non_uuid_subject_uncaught_valueerror :
    get_current_user (.decoded { sub := some "not-a-uuid", exp := some 32503680000 }) [] =
      .error (.exn "ValueError") := by
  rfl

/-- Claim C2: get, update, and delete on a record owned by another
identity answer 404 "Item not found", byte-for-byte the response for an
id that does not exist at all, never 403; the owner id is a conjunct of
the store query itself (`get_item` returns nothing for a foreign row). -/
theorem ownership_isolation_404 (db : List Item) (a b iid : Nat)
    (hab : a ≠ b)
    (hexist : ∃ it ∈ db, it.id = iid ∧ it.owner_id = b)
    (howner : ∀ it ∈ db, it.id = iid → it.owner_id = b) :
    get_item db a iid = none ∧
    get_item_by_id db a iid = .err 404 "Item not found" ∧
    (∀ item_in : ItemUpdate,
      update_item_by_id db a iid item_in = (.err 404 "Item not found", db)) ∧
    delete_item_by_id db a iid = (.err 404 "Item not found", db) ∧
    (∀ jid, (∀ it ∈ db, it.id ≠ jid) →
      get_item_by_id db a jid = get_item_by_id db a iid ∧
      (∀ item_in, (update_item_by_id db a jid item_in).1 =
        (update_item_by_id db a iid item_in).1) ∧
      (delete_item_by_id db a jid).1 = (delete_item_by_id db a iid).1) ∧
    (∀ d, get_item_by_id db a iid ≠ .err 403 d) := by
  have hnone : get_item db a iid = none := by
    unfold get_item
    rw [List.find?_eq_none]
    intro it hit
    simp only [Bool.and_eq_true, beq_iff_eq, not_and]
    intro hown hid
    rw [← hown] at hab
    exact absurd (howner it hit hid) hab
  have h404 : get_item_by_id db a iid = .err 404 "Item not found" := by
    unfold get_item_by_id
    rw [hnone]
  refine ⟨hnone, h404, ?_, ?_, ?_, ?_⟩
  · intro item_in
    unfold update_item_by_id
    rw [hnone]
  · unfold delete_item_by_id
    rw [hnone]
  · intro jid hjid
    have hjnone : get_item db a jid = none := by
      unfold get_item
      rw [List.find?_eq_none]
      intro it hit
      simp only [Bool.and_eq_true, beq_iff_eq, not_and]
      intro _ hid
      exact absurd hid (hjid it hit)
    refine ⟨?_, ?_, ?_⟩
    · unfold get_item_by_id
      rw [hnone, hjnone]
    · intro item_in
      unfold update_item_by_id
      rw [hnone, hjnone]
    · unfold delete_item_by_id
      rw [hnone, hjnone]
  · intro d h
    rw [h404] at h
    simp at h

theorem ownership_isolation_404_witness :
    get_item_by_id
      [{ id := 10, title := "groceries", description := none, owner_id := 2, created_at := 5 }]
      1 10 = .err 404 "Item not found" :=
  (ownership_isolation_404
    [{ id := 10, title := "groceries", description := none, owner_id := 2, created_at := 5 }]
    1 2 10 (by decide)
    ⟨{ id := 10, title := "groceries", description := none, owner_id := 2, created_at := 5 },
      by decide, by decide⟩
    (by decide)).2.1

/-- Claim C6: an unknown email and a wrong password produce the identical
`authenticate_user` result (`none`), and `login` translates both to the
same 401 "Incorrect email or password" response. -/
theorem auth_failures_indistinguishable (db : List User) (e1 p1 e2 p2 : String)
    (u : User)
    (h1 : get_user_by_email db (pyLower e1) = none)
    (h2 : get_user_by_email db (pyLower e2) = some u)
    (h3 : verify_password p2 u.hashed_password = false) :
    authenticate_user db e1 p1 = none ∧
    authenticate_user db e2 p2 = none ∧
    authenticate_user db e1 p1 = authenticate_user db e2 p2 ∧
    login db e1 p1 = .err 401 "Incorrect email or password" ∧
    login db e1 p1 = login db e2 p2 := by
  have a1 : authenticate_user db e1 p1 = none := by
    unfold authenticate_user
    rw [h1]
  have a2 : authenticate_user db e2 p2 = none := by
    unfold authenticate_user
    rw [h2]
    simp [h3]
  refine ⟨a1, a2, by rw [a1, a2], ?_, ?_⟩
  · unfold login
    rw [a1]
  · unfold login
    rw [a1, a2]

theorem auth_failures_indistinguishable_witness :
    authenticate_user
      [{ id := 1, email := "alice@example.com", full_name := none,
         hashed_password := get_password_hash "pw12345678",
         is_active := true, is_superuser := false }]
      "bob@example.com" "anything" =
    authenticate_user
      [{ id := 1, email := "alice@example.com", full_name := none,
         hashed_password := get_password_hash "pw12345678",
         is_active := true, is_superuser := false }]
      "alice@example.com" "wrongpass" :=
  (auth_failures_indistinguishable
    [{ id := 1, email := "alice@example.com", full_name := none,
       hashed_password := get_password_hash "pw12345678",
       is_active := true, is_superuser := false }]
    "bob@example.com" "anything" "alice@example.com" "wrongpass"
    { id := 1, email := "alice@example.com", full_name := none,
      hashed_password := get_password_hash "pw12345678",
      is_active := true, is_superuser := false }
    (by decide) (by decide) (by decide)).2.2.1

/-- Claim C7: a registration accepted for (email, password) — the
duplicate check passed and `create_user` committed — is followed by a
successful `authenticate_user` with the same password and the email in
any letter case, returning an Identity whose email matches the
registered one case-insensitively. -/
theorem register_then_authenticate_roundtrip (db : List User)
    (user_in : UserCreate) (nid : Nat)
    (hdup : get_user_by_email db user_in.email = none)
    (ecase : String) (hcase : pyLower ecase = pyLower user_in.email) :
    ∃ u, authenticate_user (create_user db user_in nid false).2
        ecase user_in.password = some u ∧
      pyLower u.email = pyLower user_in.email := by
  refine ⟨{ id := nid, email := pyLower user_in.email, full_name := user_in.full_name,
              hashed_password := get_password_hash user_in.password,
              is_active := true, is_superuser := false }, ?_, ?_⟩
  · have hfind : get_user_by_email (create_user db user_in nid false).2 (pyLower ecase) =
        some { id := nid, email := pyLower user_in.email, full_name := user_in.full_name,
               hashed_password := get_password_hash user_in.password,
               is_active := true, is_superuser := false } := by
      unfold get_user_by_email at hdup ⊢
      unfold create_user
      have hl : pyLower (pyLower ecase) = pyLower user_in.email := by
        rw [pyLower_idem, hcase]
      rw [hl, List.find?_append, hdup]
      simp
    unfold authenticate_user
    rw [hfind]
    unfold verify_password
    simp
  · exact pyLower_idem user_in.email

theorem register_then_authenticate_roundtrip_witness :
    ∃ u, authenticate_user
        (create_user [] { email := "Alice@Example.com", full_name := none,
                          password := "pw12345678" } 1 false).2
        "ALICE@EXAMPLE.COM" "pw12345678" = some u ∧
      pyLower u.email = pyLower "Alice@Example.com" :=
  register_then_authenticate_roundtrip []
    { email := "Alice@Example.com", full_name := none, password := "pw12345678" }
    1 (by decide) "ALICE@EXAMPLE.COM" (by decide)

/-- Claim C8: under the store invariant that all persisted emails are
lowercase (they are only written by `create_user`), registration with an
email already present case-insensitively fails with 400 "Email already
registered" and leaves the store unchanged; otherwise it succeeds with
201 and the stored email is the submitted email lowercased. -/
theorem registration_email_uniqueness (db : List User) (user_in : UserCreate)
    (nid : Nat)
    (hinv : ∀ u ∈ db, u.email = pyLower u.email) :
    ((∃ u ∈ db, pyLower u.email = pyLower user_in.email) →
      register_user db user_in nid = (.err 400 "Email already registered", db)) ∧
    ((¬ ∃ u ∈ db, pyLower u.email = pyLower user_in.email) →
      ∃ u2, register_user db user_in nid = (.ok 201 u2, db ++ [u2]) ∧
        u2.email = pyLower user_in.email) := by
  constructor
  · rintro ⟨u, hu, hue⟩
    have hsome : (get_user_by_email db user_in.email).isSome := by
      unfold get_user_by_email
      rw [List.find?_isSome]
      exact ⟨u, hu, by rw [beq_iff_eq, hinv u hu, hue]⟩
    obtain ⟨v, hv⟩ := Option.isSome_iff_exists.mp hsome
    unfold register_user
    rw [hv]
  · intro hno
    have hnone : get_user_by_email db user_in.email = none := by
      unfold get_user_by_email
      rw [List.find?_eq_none]
      intro v hv hp
      exact hno ⟨v, hv, by rw [eq_of_beq hp, pyLower_idem]⟩
    unfold register_user
    rw [hnone]
    exact ⟨_, rfl, rfl⟩

theorem registration_email_uniqueness_witness :
    (register_user
      [{ id := 1, email := "alice@example.com", full_name := none,
         hashed_password := "h", is_active := true, is_superuser := false }]
      { email := "ALICE@example.com", full_name := none, password := "pw12345678" } 2 =
      (.err 400 "Email already registered",
        [{ id := 1, email := "alice@example.com", full_name := none,
           hashed_password := "h", is_active := true, is_superuser := false }])) ∧
    (∃ u2, register_user []
        { email := "Bob@Example.com", full_name := none, password := "pw12345678" } 3 =
        (.ok 201 u2, [] ++ [u2]) ∧
      u2.email = pyLower "Bob@Example.com") :=
  ⟨(registration_email_uniqueness
      [{ id := 1, email := "alice@example.com", full_name := none,
         hashed_password := "h", is_active := true, is_superuser := false }]
      { email := "ALICE@example.com", full_name := none, password := "pw12345678" }
      2 (by decide)).1
    ⟨{ id := 1, email := "alice@example.com", full_name := none,
       hashed_password := "h", is_active := true, is_superuser := false },
      by decide, by decide⟩,
   (registration_email_uniqueness []
      { email := "Bob@Example.com", full_name := none, password := "pw12345678" }
      3 (by decide)).2 (by simp)⟩

/-- Claim C9: `list_items` returns exactly the rows whose `owner_id` is
the resolved identity (as a multiset: a permutation of the owner filter
of the store), and the result is ordered newest-first by `created_at`. -/
theorem list_items_scoped_newest_first (db : List Item) (oid : Nat) :
    List.Perm (list_items db oid) (db.filter (fun it => it.owner_id == oid)) ∧
    (∀ it, it ∈ list_items db oid ↔ it ∈ db ∧ it.owner_id = oid) ∧
    List.Sorted newerFirst (list_items db oid) := by
  refine ⟨List.perm_insertionSort newerFirst _, ?_, List.sorted_insertionSort newerFirst _⟩
  intro it
  unfold list_items
  rw [List.mem_insertionSort, List.mem_filter]
  simp

/-- Claim C10: `update_item` changes at most `title` and `description`;
`id`, `owner_id` and `created_at` are untouched, and a payload field
supplied as `None` leaves the prior value in place. -/
theorem update_item_frame (db : List Item) (item : Item) (item_in : ItemUpdate) :
    ((update_item db item item_in).1).id = item.id ∧
    ((update_item db item item_in).1).owner_id = item.owner_id ∧
    ((update_item db item item_in).1).created_at = item.created_at ∧
    (item_in.title = none → ((update_item db item item_in).1).title = item.title) ∧
    (item_in.description = none →
      ((update_item db item item_in).1).description = item.description) := by
  unfold update_item
  rcases item_in with ⟨t, d⟩
  cases t <;> cases d <;> simp

theorem update_item_frame_witness :
    ((update_item [] { id := 7, title := "t", description := some "d",
                       owner_id := 3, created_at := 11 } { title := none, description := none }).1).id = 7 ∧
    ((update_item [] { id := 7, title := "t", description := some "d",
                       owner_id := 3, created_at := 11 } { title := none, description := none }).1).title = "t" ∧
    ((update_item [] { id := 7, title := "t", description := some "d",
                       owner_id := 3, created_at := 11 } { title := none, description := none }).1).description =
      some "d" :=
  ⟨(update_item_frame [] { id := 7, title := "t", description := some "d",
                           owner_id := 3, created_at := 11 } { title := none, description := none }).1,
   (update_item_frame [] { id := 7, title := "t", description := some "d",
                           owner_id := 3, created_at := 11 } { title := none, description := none }).2.2.2.1 rfl,
   (update_item_frame [] { id := 7, title := "t", description := some "d",
                           owner_id := 3, created_at := 11 } { title := none, description := none }).2.2.2.2 rfl⟩

end TechExam
